import Mathlib

/-!
Shallow embedding of the Nyon engine's 2D physics / collision core
(`src/engine/src/utils/Physics.cpp`, `GravityPhysics.cpp`, `CollisionPhysics.cpp`,
`src/engine/include/nyon/ecs/components/PhysicsBodyComponent.h`,
`src/engine/include/nyon/ecs/systems/CollisionSystem.h`).

Machine `float` values are modelled as exact real numbers; `std::sqrt` is
`Real.sqrt`; `std::numeric_limits<float>::max()` is the exact value of
`FLT_MAX`.  C++ `while` loops are modelled by structural recursion: the CCD
bisection loop literally recurses on its iteration budget, and the integrator's
sub-stepping loop recurses on a fuel argument chosen large enough
(`⌈deltaTime / maxStep⌉`) that the loop condition, which is tested at every
step exactly as in the source, is what actually terminates it.

The file is organised as definitions first (translated from the C++ source),
then theorems about them.
-/

open scoped Classical

noncomputable section

namespace Nyon

/-- `Nyon::Math::Vector2` (Vector2.h): a pair of floats, modelled over ℝ. -/
structure Vector2 where
  x : ℝ
  y : ℝ

instance : Add Vector2 := ⟨fun a b => ⟨a.x + b.x, a.y + b.y⟩⟩

instance : Sub Vector2 := ⟨fun a b => ⟨a.x - b.x, a.y - b.y⟩⟩

/-- `Vector2::operator*(float)`. -/
def Vector2.scale (v : Vector2) (s : ℝ) : Vector2 := ⟨v.x * s, v.y * s⟩

/-- `Vector2::operator/(float)`. -/
def Vector2.divScalar (v : Vector2) (s : ℝ) : Vector2 := ⟨v.x / s, v.y / s⟩

/-- `Nyon::Utils::Physics::Body` (Physics.h). -/
structure Body where
  position : Vector2
  velocity : Vector2
  acceleration : Vector2
  mass : ℝ
  friction : ℝ
  drag : ℝ
  maxSpeed : ℝ
  isStatic : Bool

namespace GravityPhysics

/-- `GravityPhysics::Gravity` (= `Physics::Gravity`), pixels/s². -/
def Gravity : ℝ := 980

/-- The local constant `maxStep = 1.0f / 60.0f` of `UpdateBody`. -/
def maxStep : ℝ := 1 / 60

/-- The velocity clamp of `InternalUpdateBody`: the two sequential `if`s
`if (v > maxVel) v = maxVel; if (v < -maxVel) v = -maxVel;` on one component. -/
def clampComponent (v maxVel : ℝ) : ℝ :=
  let v1 := if v > maxVel then maxVel else v
  if v1 < -maxVel then -maxVel else v1

/-- `GravityPhysics::InternalUpdateBody` (GravityPhysics.cpp:26-81).
`Physics::InternalUpdateBody` (Physics.cpp:27-81) is verbatim identical. -/
def InternalUpdateBody (body : Body) (deltaTime : ℝ) (isGrounded : Bool) : Body :=
  if deltaTime > 0 then
    if body.isStatic then
      { body with velocity := ⟨0, 0⟩, acceleration := ⟨0, 0⟩ }
    else
      -- Apply other accelerations to velocity
      let v1 : Vector2 := ⟨body.velocity.x + body.acceleration.x * deltaTime,
                           body.velocity.y + body.acceleration.y * deltaTime⟩
      -- Apply gravity as acceleration
      let a1 : Vector2 := ⟨body.acceleration.x, body.acceleration.y + Gravity⟩
      -- Apply all accumulated acceleration to velocity
      let v2 : Vector2 := ⟨v1.x + a1.x * deltaTime, v1.y + a1.y * deltaTime⟩
      -- Clamp vertical velocity if moving downward into the ground
      let v3 : Vector2 := if isGrounded ∧ v2.y > 0 then ⟨v2.x, 0⟩ else v2
      -- Apply friction if grounded
      let v4 : Vector2 :=
        if isGrounded then ⟨v3.x * (1 - min (body.friction * deltaTime) 1), v3.y⟩ else v3
      -- Apply drag (air resistance)
      let v5 : Vector2 := v4.scale (1 - min (body.drag * deltaTime) 1)
      -- Apply velocity to position (Symplectic Euler)
      let newPos : Vector2 := ⟨body.position.x + v5.x * deltaTime,
                               body.position.y + v5.y * deltaTime⟩
      -- Clamp velocity to prevent extreme speeds, then reset acceleration
      let v6 : Vector2 := ⟨clampComponent v5.x body.maxSpeed, clampComponent v5.y body.maxSpeed⟩
      { body with position := newPos, velocity := v6, acceleration := ⟨0, 0⟩ }
  else body

/-- The `while (remainingTime > maxStep)` loop of `UpdateBody`, with the final
partial `InternalUpdateBody` call after loop exit.  The fuel argument only
bounds recursion depth; the loop condition is tested exactly as in the source. -/
def substepLoop (isGrounded : Bool) : ℕ → Body → ℝ → Body
  | 0, body, remainingTime => InternalUpdateBody body remainingTime isGrounded
  | fuel + 1, body, remainingTime =>
    if remainingTime > maxStep then
      substepLoop isGrounded fuel (InternalUpdateBody body maxStep isGrounded)
        (remainingTime - maxStep)
    else
      InternalUpdateBody body remainingTime isGrounded

/-- `GravityPhysics::UpdateBody` (GravityPhysics.cpp:9-24).
`Physics::UpdateBody` (Physics.cpp:10-25) is verbatim identical.
Note the source does nothing at all when `body.isStatic`. -/
def UpdateBody (body : Body) (deltaTime : ℝ) (isGrounded : Bool) : Body :=
  if body.isStatic then body
  else substepLoop isGrounded (Nat.ceil (deltaTime / maxStep)) body deltaTime

end GravityPhysics

/-- The concrete free-fall body of claim C2: at rest, no pending acceleration,
no friction, no drag, generous speed limit, dynamic. -/
def fallBody : Body := ⟨⟨0, 0⟩, ⟨0, 0⟩, ⟨0, 0⟩, 1, 0, 0, 1000, false⟩

/-- The concrete static body of claim C3, carrying nonzero velocity and
acceleration. -/
def staticBody : Body := ⟨⟨0, 0⟩, ⟨100, 100⟩, ⟨50, 50⟩, 1, 1 / 10, 0, 1000, true⟩

/-- The concrete dynamic body of claim C4's counterexample: pending
acceleration (100, 0), otherwise at rest, frictionless, dragless. -/
def accelBody : Body := ⟨⟨0, 0⟩, ⟨0, 0⟩, ⟨100, 0⟩, 1, 0, 0, 1000, false⟩

namespace CollisionPhysics

/-- The exact value of `std::numeric_limits<float>::max()` (FLT_MAX), the
initial value of `minOverlap` in `CheckPolygonCollision` and of `closestT` in
`RaycastPolygon`. -/
def floatMax : ℝ := (2 ^ 24 - 1) * 2 ^ 104

/-- Models the float `INFINITY` sentinel returned by `ProjectPolygonOntoAxis`
for an empty polygon (that branch is unreachable from `CheckPolygonCollision`,
which bails out on empty polygons first); any value strictly above `floatMax`
is faithful. -/
def floatInf : ℝ := 2 ^ 128

/-- `CollisionPhysics::DotProduct` (= `Physics::DotProduct`). -/
def DotProduct (a b : Vector2) : ℝ := a.x * b.x + a.y * b.y

/-- `CollisionPhysics::GetEdgeNormal` (= `Physics::GetEdgeNormal`). -/
def GetEdgeNormal (edge : Vector2) : Vector2 := ⟨-edge.y, edge.x⟩

/-- The `i = 1 .. size-1` loop of `ProjectPolygonOntoAxis`, updating the
running min/max projection with the source's two `if`s. -/
def projFold (pos axis : Vector2) : List Vector2 → ℝ × ℝ → ℝ × ℝ
  | [], acc => acc
  | v :: vs, acc =>
    let projection := DotProduct (v + pos) axis
    projFold pos axis vs
      (if projection < acc.1 then projection else acc.1,
       if projection > acc.2 then projection else acc.2)

/-- `CollisionPhysics::ProjectPolygonOntoAxis` (= `Physics::` version). -/
def ProjectPolygonOntoAxis (polygon : List Vector2) (pos axis : Vector2) : ℝ × ℝ :=
  match polygon with
  | [] => (floatInf, -floatInf)
  | v :: vs =>
    let p0 := DotProduct (v + pos) axis
    projFold pos axis vs (p0, p0)

/-- `CollisionPhysics::CalculatePolygonCenter` (= `Physics::` version). -/
def CalculatePolygonCenter (polygon : List Vector2) (pos : Vector2) : Vector2 :=
  match polygon with
  | [] => pos
  | v :: vs =>
    ((v :: vs).foldl (fun s u => s + u + pos) ⟨0, 0⟩).divScalar ((v :: vs).length : ℝ)

/-- `CollisionPhysics::CheckOverlap` (= `Physics::` version): interval overlap
test with the `0.0001f` touching tolerance. -/
def CheckOverlap (min1 max1 min2 max2 : ℝ) : Prop :=
  ¬ (max1 < min2 - 0.0001 ∨ max2 < min1 - 0.0001)

/-- `CollisionPhysics::CalculateIntervalOverlap` (inlined in `Physics::`). -/
def CalculateIntervalOverlap (min1 max1 min2 max2 : ℝ) : ℝ :=
  min max1 max2 - max min1 min2

/-- `CollisionPhysics::CheckAABBCollision` (= `Physics::` version). -/
def CheckAABBCollision (pos1 size1 pos2 size2 : Vector2) : Prop :=
  (pos1.x < pos2.x + size2.x ∧ pos1.x + size1.x > pos2.x)
  ∧ (pos1.y < pos2.y + size2.y ∧ pos1.y + size1.y > pos2.y)

/-- The per-vertex min/max update of `CalculateAABB`'s loop. -/
def aabbStep (pos : Vector2) (acc : Vector2 × Vector2) (v : Vector2) : Vector2 × Vector2 :=
  let w := v + pos
  (⟨if w.x < acc.1.x then w.x else acc.1.x, if w.y < acc.1.y then w.y else acc.1.y⟩,
   ⟨if w.x > acc.2.x then w.x else acc.2.x, if w.y > acc.2.y then w.y else acc.2.y⟩)

/-- `CollisionPhysics::CalculateAABB` (and the AABB loops inlined in
`Physics::CheckPolygonCollision`): min/max corners of polygon + position;
an empty polygon gives the degenerate point box at `pos`. -/
def CalculateAABB (polygon : List Vector2) (pos : Vector2) : Vector2 × Vector2 :=
  match polygon with
  | [] => (pos, pos)
  | v :: vs => (v :: vs).foldl (aabbStep pos) (v + pos, v + pos)

/-- `CollisionPhysics::CalculateSweptAABB`: union of the AABBs at the start
and end positions. -/
def CalculateSweptAABB (polygon : List Vector2) (startPos endPos : Vector2) :
    Vector2 × Vector2 :=
  let a1 := CalculateAABB polygon startPos
  let a2 := CalculateAABB polygon endPos
  (⟨min a1.1.x a2.1.x, min a1.1.y a2.1.y⟩, ⟨max a1.2.x a2.2.x, max a1.2.y a2.2.y⟩)

/-- Cyclic left rotation of the vertex list, so that zipping gives the edge
pairs `(polygon[i], polygon[(i+1) % n])` of the source's edge loops. -/
def rotateOne : List Vector2 → List Vector2
  | [] => []
  | v :: vs => vs ++ [v]

/-- The consecutive vertex pairs `(polygon[i], polygon[(i+1) % n])`. -/
def edgePairs (polygon : List Vector2) : List (Vector2 × Vector2) :=
  polygon.zip (rotateOne polygon)

/-- One iteration of the axis-collection loops of `CheckPolygonCollision`:
normalize the edge normal (skipping near-zero-length edges) and push it
unless it is parallel (|dot| > 0.999) to an already collected axis. -/
def addAxisFromEdge (axes : List Vector2) (e : Vector2 × Vector2) : List Vector2 :=
  let edge := e.2 - e.1
  let normal := GetEdgeNormal edge
  let length := Real.sqrt (normal.x * normal.x + normal.y * normal.y)
  if length > 1e-6 then
    let n : Vector2 := ⟨normal.x / length, normal.y / length⟩
    if ∃ a ∈ axes, |DotProduct n a| > 0.999 then axes else axes ++ [n]
  else axes

/-- The axis-collection loop over one polygon's edges. -/
def collectAxes (axes : List Vector2) (polygon : List Vector2) : List Vector2 :=
  (edgePairs polygon).foldl addAxisFromEdge axes

/-- The separation/MTV loop of `CheckPolygonCollision` over the candidate
axes: `none` means a separating axis was found (early return not-collided);
`some (minAxis, minOverlap)` is the MTV accumulator after all axes, where
axes with overlap below the `1e-4` negligible-overlap epsilon are skipped. -/
def satLoop (poly1 : List Vector2) (pos1 : Vector2) (poly2 : List Vector2) (pos2 : Vector2) :
    List Vector2 → Vector2 × ℝ → Option (Vector2 × ℝ)
  | [], acc => some acc
  | axis :: rest, acc =>
    let proj1 := ProjectPolygonOntoAxis poly1 pos1 axis
    let proj2 := ProjectPolygonOntoAxis poly2 pos2 axis
    if ¬ CheckOverlap proj1.1 proj1.2 proj2.1 proj2.2 then none
    else
      let overlap := CalculateIntervalOverlap proj1.1 proj1.2 proj2.1 proj2.2
      if overlap < 1e-4 then satLoop poly1 pos1 poly2 pos2 rest acc
      else if overlap < acc.2 then satLoop poly1 pos1 poly2 pos2 rest (axis, overlap)
      else satLoop poly1 pos1 poly2 pos2 rest acc

/-- `CollisionPhysics::CollisionResult` (= `Physics::CollisionResult`). -/
structure CollisionResult where
  collided : Bool
  overlapAxis : Vector2
  overlapAmount : ℝ

/-- `CollisionPhysics::CheckPolygonCollision` (CollisionPhysics.cpp:173-285).
`Physics::CheckPolygonCollision` (Physics.cpp:189-341) is the same algorithm
with the AABB helper loops inlined. -/
def CheckPolygonCollision (poly1 : List Vector2) (pos1 : Vector2)
    (poly2 : List Vector2) (pos2 : Vector2) : CollisionResult :=
  if poly1.isEmpty ∨ poly2.isEmpty then ⟨false, ⟨0, 0⟩, 0⟩
  else
    let aabb1 := CalculateAABB poly1 pos1
    let aabb2 := CalculateAABB poly2 pos2
    if 2 ≤ poly1.length ∧ 2 ≤ poly2.length
        ∧ ¬ CheckAABBCollision aabb1.1 (aabb1.2 - aabb1.1) aabb2.1 (aabb2.2 - aabb2.1) then
      ⟨false, ⟨0, 0⟩, 0⟩
    else
      let axes := collectAxes (collectAxes [] poly1) poly2
      match satLoop poly1 pos1 poly2 pos2 axes (⟨0, 0⟩, floatMax) with
      | none => ⟨false, ⟨0, 0⟩, 0⟩
      | some acc =>
        let center1 := CalculatePolygonCenter poly1 pos1
        let center2 := CalculatePolygonCenter poly2 pos2
        let directionVec := center2 - center1
        if DotProduct directionVec acc.1 < 0 then ⟨true, acc.1.scale (-1), acc.2⟩
        else ⟨true, acc.1, acc.2⟩

/-- `CollisionPhysics::CCDResult`. -/
structure CCDResult where
  collided : Bool
  timeOfImpact : ℝ
  impactPosition : Vector2
  collision : CollisionResult

/-- The `for (iteration < maxIterations)` bisection loop of
`ContinuousCollisionCheck`, recursing on the remaining iteration budget.
State: the current bracket `[tMin, tMax]` and the best impact found so far
`(toi, impactPos, impactCollision)`; the two `break`s fire exactly when the
bracket width falls below the `0.001` tolerance after the bracket update. -/
def ccdLoop (poly1 : List Vector2) (startPos1 endPos1 : Vector2)
    (poly2 : List Vector2) (startPos2 endPos2 : Vector2) :
    ℕ → ℝ → ℝ → ℝ × Vector2 × CollisionResult → ℝ × Vector2 × CollisionResult
  | 0, _, _, best => best
  | iter + 1, tMin, tMax, best =>
    let tMid := (tMin + tMax) * 0.5
    let pos1 := startPos1 + (endPos1 - startPos1).scale tMid
    let pos2 := startPos2 + (endPos2 - startPos2).scale tMid
    let collision := CheckPolygonCollision poly1 pos1 poly2 pos2
    if collision.collided then
      if tMid - tMin < 0.001 then (tMid, pos1, collision)
      else ccdLoop poly1 startPos1 endPos1 poly2 startPos2 endPos2 iter tMin tMid
        (tMid, pos1, collision)
    else
      if tMax - tMid < 0.001 then best
      else ccdLoop poly1 startPos1 endPos1 poly2 startPos2 endPos2 iter tMid tMax best

/-- `CollisionPhysics::ContinuousCollisionCheck` (CollisionPhysics.cpp:293-367):
early exit at t=0 if already colliding, early exit at t=1 if not colliding at
the end AND the swept AABBs are disjoint, otherwise bisection followed by the
`safetyMargin = 0.02` back-off of a found time of impact. -/
def ContinuousCollisionCheck (poly1 : List Vector2) (startPos1 endPos1 : Vector2)
    (poly2 : List Vector2) (startPos2 endPos2 : Vector2) (maxIterations : ℕ) : CCDResult :=
  let startCollision := CheckPolygonCollision poly1 startPos1 poly2 startPos2
  if startCollision.collided then ⟨true, 0, startPos1, startCollision⟩
  else
    let endCollision := CheckPolygonCollision poly1 endPos1 poly2 endPos2
    let swept1 := CalculateSweptAABB poly1 startPos1 endPos1
    let swept2 := CalculateSweptAABB poly2 startPos2 endPos2
    if ¬ endCollision.collided
        ∧ ¬ CheckAABBCollision swept1.1 (swept1.2 - swept1.1) swept2.1 (swept2.2 - swept2.1) then
      ⟨false, 1, endPos1, ⟨false, ⟨0, 0⟩, 0⟩⟩
    else
      let best := ccdLoop poly1 startPos1 endPos1 poly2 startPos2 endPos2 maxIterations 0 1
        (1, endPos1, ⟨false, ⟨0, 0⟩, 0⟩)
      if best.2.2.collided ∧ best.1 > 0 then
        let toi := max 0 (best.1 - 0.02)
        ⟨best.2.2.collided, toi, startPos1 + (endPos1 - startPos1).scale toi, best.2.2⟩
      else
        ⟨best.2.2.collided, best.1, best.2.1, best.2.2⟩

/-- `CollisionPhysics::ContinuousCollisionCheckMovingVsStatic`: the moving vs
static convenience wrapper (startPos2 = endPos2 = staticPos). -/
def ContinuousCollisionCheckMovingVsStatic (movingPoly : List Vector2)
    (startPos endPos : Vector2) (staticPoly : List Vector2) (staticPos : Vector2)
    (maxIterations : ℕ) : CCDResult :=
  ContinuousCollisionCheck movingPoly startPos endPos staticPoly staticPos staticPos
    maxIterations

/-- `CollisionPhysics::RaycastResult`. -/
structure RaycastResult where
  hit : Bool
  hitPoint : Vector2
  hitNormal : Vector2
  hitDistance : ℝ

/-- The per-edge loop of `RaycastPolygon`: ray vs edge-segment intersection in
the cross-product parametric form, keeping the closest accepted hit.  State:
`(closestT, closestPoint, closestNormal, hit)`. -/
def raycastLoop (rayStart rayDir : Vector2) (rayLength : ℝ) :
    List (Vector2 × Vector2) → ℝ × Vector2 × Vector2 × Bool → ℝ × Vector2 × Vector2 × Bool
  | [], acc => acc
  | (edgeStart, edgeEnd) :: rest, acc =>
    let edgeDir := edgeEnd - edgeStart
    let cross := rayDir.x * edgeDir.y - rayDir.y * edgeDir.x
    if |cross| < 1e-6 then raycastLoop rayStart rayDir rayLength rest acc
    else
      let diff := edgeStart - rayStart
      let t := (diff.x * edgeDir.y - diff.y * edgeDir.x) / cross
      let s := (diff.x * rayDir.y - diff.y * rayDir.x) / cross
      if t ≥ 0 ∧ t ≤ rayLength ∧ s ≥ 0 ∧ s ≤ 1 then
        if t < acc.1 then
          let edgeNormal := GetEdgeNormal edgeDir
          let normalLength :=
            Real.sqrt (edgeNormal.x * edgeNormal.x + edgeNormal.y * edgeNormal.y)
          let n1 := if normalLength > 1e-6
            then (⟨edgeNormal.x / normalLength, edgeNormal.y / normalLength⟩ : Vector2)
            else edgeNormal
          let n2 := if DotProduct n1 rayDir > 0 then n1.scale (-1) else n1
          raycastLoop rayStart rayDir rayLength rest (t, rayStart + rayDir.scale t, n2, true)
        else raycastLoop rayStart rayDir rayLength rest acc
      else raycastLoop rayStart rayDir rayLength rest acc

/-- `CollisionPhysics::RaycastPolygon` (CollisionPhysics.cpp:381-454). -/
def RaycastPolygon (rayStart rayEnd : Vector2) (polygon : List Vector2) (polyPos : Vector2) :
    RaycastResult :=
  if polygon.isEmpty then ⟨false, ⟨0, 0⟩, ⟨0, 0⟩, 1⟩
  else
    let rayDir0 := rayEnd - rayStart
    let rayLength := Real.sqrt (rayDir0.x * rayDir0.x + rayDir0.y * rayDir0.y)
    if rayLength < 1e-6 then ⟨false, ⟨0, 0⟩, ⟨0, 0⟩, 1⟩
    else
      let rayDir : Vector2 := ⟨rayDir0.x / rayLength, rayDir0.y / rayLength⟩
      let acc := raycastLoop rayStart rayDir rayLength
        (edgePairs (polygon.map (fun v => v + polyPos)))
        (floatMax, ⟨0, 0⟩, ⟨0, 0⟩, false)
      ⟨acc.2.2.2, acc.2.1, acc.2.2.1, if rayLength > 0 then acc.1 / rayLength else 1⟩

/-- `CollisionPhysics::ResolveCollision` (CollisionPhysics.cpp:460-516);
`Physics::ResolveCollision` (Physics.cpp:343-404) is identical up to a
redundant `isStatic` ternary inside the impulse application.  Mutation of the
two bodies is modelled by returning the updated pair. -/
def ResolveCollision (body1 body2 : Body) (result : CollisionResult) : Body × Body :=
  if ¬ result.collided then (body1, body2)
  else if body1.isStatic ∧ body2.isStatic then (body1, body2)
  else
    let mass1 := if body1.isStatic then 0 else body1.mass
    let mass2 := if body2.isStatic then 0 else body2.mass
    let totalMass := mass1 + mass2
    if totalMass ≤ 0 then (body1, body2)
    else
      let percent1 := if totalMass > 0 then mass2 / totalMass else 0.5
      let percent2 := if totalMass > 0 then mass1 / totalMass else 0.5
      let correctedPenetration := max (result.overlapAmount - 0.01) 0
      let b1 := if ¬ body1.isStatic then
          { body1 with position :=
              body1.position - (result.overlapAxis.scale correctedPenetration).scale percent1 }
        else body1
      let b2 := if ¬ body2.isStatic then
          { body2 with position :=
              body2.position + (result.overlapAxis.scale correctedPenetration).scale percent2 }
        else body2
      let relativeVelocity := b2.velocity - b1.velocity
      let velocityAlongNormal := DotProduct relativeVelocity result.overlapAxis
      if velocityAlongNormal > 0 then (b1, b2)
      else
        let restitution : ℝ := 0
        let j := (-(1 + restitution) * velocityAlongNormal)
          / ((if body1.isStatic then 0 else 1 / body1.mass)
            + (if body2.isStatic then 0 else 1 / body2.mass))
        let impulse := result.overlapAxis.scale j
        let b1f := if ¬ body1.isStatic then
            { b1 with velocity := b1.velocity - impulse.scale (1 / body1.mass) } else b1
        let b2f := if ¬ body2.isStatic then
            { b2 with velocity := b2.velocity + impulse.scale (1 / body2.mass) } else b2
        (b1f, b2f)

end CollisionPhysics

/-- A dynamic body with a negative mass field, so that the total resolvable
mass in `ResolveCollision` is ≤ 0. -/
def negMassBody : Body := ⟨⟨0, 0⟩, ⟨0, 0⟩, ⟨0, 0⟩, -1, 0, 0, 1000, false⟩

namespace ECS

/-- `Nyon::ECS::PhysicsBodyComponent` (PhysicsBodyComponent.h), with the
`int groundedFrames` counter modelled over ℤ. -/
structure PhysicsBodyComponent where
  velocity : Vector2
  acceleration : Vector2
  mass : ℝ
  friction : ℝ
  drag : ℝ
  maxSpeed : ℝ
  isStatic : Bool
  isGrounded : Bool
  groundedFrames : ℤ

/-- `PhysicsBodyComponent::GROUNDED_THRESHOLD` = 2. -/
def GROUNDED_THRESHOLD : ℤ := 2

/-- `PhysicsBodyComponent::IsStablyGrounded`. -/
def IsStablyGrounded (b : PhysicsBodyComponent) : Bool :=
  decide (GROUNDED_THRESHOLD ≤ b.groundedFrames)

/-- `PhysicsBodyComponent::UpdateGroundedState`: bump or reset the counter,
then derive `isGrounded` from the updated counter. -/
def UpdateGroundedState (b : PhysicsBodyComponent) (currentlyGrounded : Bool) :
    PhysicsBodyComponent :=
  let b1 := if currentlyGrounded then { b with groundedFrames := b.groundedFrames + 1 }
    else { b with groundedFrames := 0 }
  { b1 with isGrounded := IsStablyGrounded b1 }

/-- The grounded-state flow of one `CollisionSystem::Update` tick for a single
non-static body (CollisionSystem.h): `ResetGroundedCounters` zeroes
`groundedFrames`; then each qualifying supporting contact counted by
`CheckGroundedContribution` and each bottom-boundary clamp in
`ApplyBoundaryConstraints` increments it — `k` increments in total this tick;
finally `UpdateFinalGroundedStates` calls
`UpdateGroundedState(body.groundedFrames > 0)`. -/
def collisionTickGrounded (b : PhysicsBodyComponent) (k : ℕ) : PhysicsBodyComponent :=
  let reset := { b with groundedFrames := 0 }
  let counted := { reset with groundedFrames := reset.groundedFrames + (k : ℤ) }
  UpdateGroundedState counted (decide (counted.groundedFrames > 0))

end ECS

/-- A concrete `PhysicsBodyComponent` with `groundedFrames = 0`. -/
def groundedZero : ECS.PhysicsBodyComponent :=
  ⟨⟨0, 0⟩, ⟨0, 0⟩, 1, 1 / 10, 0, 1000, false, false, 0⟩

/-- Unit length of a vector, in the squared form `‖v‖² = 1` (equivalent to
`Length() == 1` without mentioning the square root). -/
def UnitLength (v : Vector2) : Prop := CollisionPhysics.DotProduct v v = 1

/-!  Theorems. -/

@[simp] theorem Vector2.add_x (a b : Vector2) : (a + b).x = a.x + b.x := rfl

@[simp] theorem Vector2.add_y (a b : Vector2) : (a + b).y = a.y + b.y := rfl

@[simp] theorem Vector2.sub_x (a b : Vector2) : (a - b).x = a.x - b.x := rfl

@[simp] theorem Vector2.sub_y (a b : Vector2) : (a - b).y = a.y - b.y := rfl

@[simp] theorem Vector2.scale_x (v : Vector2) (s : ℝ) : (v.scale s).x = v.x * s := rfl

@[simp] theorem Vector2.scale_y (v : Vector2) (s : ℝ) : (v.scale s).y = v.y * s := rfl

@[simp] theorem Vector2.divScalar_x (v : Vector2) (s : ℝ) : (v.divScalar s).x = v.x / s := rfl

@[simp] theorem Vector2.divScalar_y (v : Vector2) (s : ℝ) : (v.divScalar s).y = v.y / s := rfl

namespace GravityPhysics

theorem substepLoop_succ (g : Bool) (n : ℕ) (b : Body) (t : ℝ) :
    substepLoop g (n + 1) b t =
      if t > maxStep then substepLoop g n (InternalUpdateBody b maxStep g) (t - maxStep)
      else InternalUpdateBody b t g := rfl

/-- One `UpdateBody` call with `deltaTime ≤ maxStep` on a dynamic body is a
single `InternalUpdateBody` call (the `while` loop body never runs). -/
theorem UpdateBody_small (b : Body) (t : ℝ) (g : Bool) (hs : b.isStatic = false)
    (ht : t ≤ maxStep) : UpdateBody b t g = InternalUpdateBody b t g := by
  rw [UpdateBody, if_neg (by simp [hs])]
  rcases Nat.eq_zero_or_eq_succ_pred (Nat.ceil (t / maxStep)) with h | h
  · rw [h]; rfl
  · rw [h, substepLoop_succ, if_neg (not_lt.mpr ht)]

end GravityPhysics

/-- C2: the code is evaluated at the claim's own scenario (zero initial velocity
and acceleration, `isGrounded = false`, friction = drag = 0, maxSpeed = 1000,
one `UpdateBody` with `dt = 1/60`).  The velocity half of the claim holds
(`velocity.y = 980·dt` exactly), but symplectic Euler moves the body by
`velocity_new · dt = 980·dt²`, twice the claimed `0.5·980·dt²`, far outside the
claimed 1e-3 relative tolerance.  This matches the repository's own failing
expectation `EXPECT_FLOAT_NEAR(position.y, 0.5f*Gravity*dt*dt, 1e-3f)` in
`src/test/unit/PhysicsGravityTest.cpp` (FreeFall_Basic). -/
theorem freeFall_first_step_divergence :
    (GravityPhysics.UpdateBody fallBody (1 / 60) false).velocity.y = 980 * (1 / 60)
    ∧ (GravityPhysics.UpdateBody fallBody (1 / 60) false).position.y = 980 * (1 / 60) * (1 / 60)
    ∧ ¬ |(GravityPhysics.UpdateBody fallBody (1 / 60) false).position.y
          - (1 / 2) * 980 * (1 / 60) * (1 / 60)|
        ≤ (1 / 1000) * ((1 / 2) * 980 * (1 / 60) * (1 / 60)) := by
  have h := GravityPhysics.UpdateBody_small fallBody (1 / 60) false rfl
    (le_of_eq (by rw [GravityPhysics.maxStep]))
  rw [h]
  norm_num [GravityPhysics.InternalUpdateBody, GravityPhysics.Gravity,
    GravityPhysics.clampComponent, fallBody, Vector2.scale, min_def, abs_sub_le_iff]
  rw [show |(49 : ℝ) / 360| = 49 / 360 from abs_of_pos (by norm_num)]
  norm_num

/-- C3: `UpdateBody` on a static body does nothing at all: the whole routine is
guarded by `if (!body.isStatic)`, so the static-body zeroing inside
`InternalUpdateBody` is unreachable from `UpdateBody`.  Position is indeed
unchanged, but velocity and acceleration are NOT set to zero — contradicting
the claim and the repository's own test
(`PhysicsGravityTest.StaticBody_NoMovement` expects velocity and acceleration
to read 0 after this very call). -/
theorem staticBody_not_zeroed :
    GravityPhysics.UpdateBody staticBody 1 false = staticBody
    ∧ staticBody.position = (⟨0, 0⟩ : Vector2)
    ∧ staticBody.velocity ≠ (⟨0, 0⟩ : Vector2)
    ∧ staticBody.acceleration ≠ (⟨0, 0⟩ : Vector2) := by
  refine ⟨by rw [GravityPhysics.UpdateBody,
    if_pos (show staticBody.isStatic = true from rfl)], rfl, ?_, ?_⟩
  · simp only [staticBody, ne_eq, Vector2.mk.injEq]
    norm_num
  · simp only [staticBody, ne_eq, Vector2.mk.injEq]
    norm_num

/-- C4 counterexample: on this sub-step no ground clamp, friction, drag or
speed clamp is active, so the final velocity equals the velocity reached just
before position integration.  The claim predicts a gain of
`(acceleration.x + 0)·dt = 100/60` on x; the code adds the pre-existing
acceleration twice (once alone, once inside the accumulated acceleration) and
yields `200/60`. -/
theorem substep_accel_once_false :
    (GravityPhysics.InternalUpdateBody accelBody (1 / 60) false).velocity.x = 200 / 60
    ∧ ¬ ((200 / 60 : ℝ) = accelBody.velocity.x + accelBody.acceleration.x * (1 / 60)) := by
  constructor
  · norm_num [GravityPhysics.InternalUpdateBody, GravityPhysics.Gravity,
      GravityPhysics.clampComponent, accelBody, Vector2.scale, min_def]
  · norm_num [accelBody]

/-- C4 amended: in every sub-step of duration `dt > 0` on a dynamic body the
pre-existing acceleration contributes TWICE — the velocity reached before the
position update is `v + (2·a + Gravity·e_y)·dt` (when not grounded and with
zero drag, the configurations in which acceleration is the only velocity
modifier); the position then integrates exactly that velocity (symplectic
Euler), the stored velocity is that velocity clamped componentwise to
`maxSpeed`, and the acceleration is reset to zero after every sub-step with
`dt > 0` regardless of grounding, friction or drag. -/
theorem substep_velocity_gain (b : Body) (dt : ℝ) (hs : b.isStatic = false) (hdt : dt > 0) :
    (∀ g : Bool, (GravityPhysics.InternalUpdateBody b dt g).acceleration = ⟨0, 0⟩)
    ∧ (b.drag = 0 →
        (GravityPhysics.InternalUpdateBody b dt false).velocity.x
            = GravityPhysics.clampComponent (b.velocity.x + 2 * b.acceleration.x * dt) b.maxSpeed
        ∧ (GravityPhysics.InternalUpdateBody b dt false).velocity.y
            = GravityPhysics.clampComponent
                (b.velocity.y + (2 * b.acceleration.y + GravityPhysics.Gravity) * dt) b.maxSpeed
        ∧ (GravityPhysics.InternalUpdateBody b dt false).position.x
            = b.position.x + (b.velocity.x + 2 * b.acceleration.x * dt) * dt
        ∧ (GravityPhysics.InternalUpdateBody b dt false).position.y
            = b.position.y
              + (b.velocity.y + (2 * b.acceleration.y + GravityPhysics.Gravity) * dt) * dt) := by
  constructor
  · intro g
    rw [GravityPhysics.InternalUpdateBody, if_pos hdt, if_neg (by simp [hs])]
  · intro hd
    rw [GravityPhysics.InternalUpdateBody, if_pos hdt, if_neg (by simp [hs])]
    simp only [hd, Vector2.scale, zero_mul, false_and, if_false, Bool.false_eq_true]
    norm_num [min_def]
    refine ⟨by ring_nf <;> tauto, by ring_nf <;> tauto, by ring_nf <;> tauto,
      by ring_nf <;> tauto⟩

/-- Witness for `substep_velocity_gain` at the concrete body `accelBody` and
`dt = 1/60`. -/
theorem substep_velocity_gain_witness :
    accelBody.isStatic = false ∧ (1 / 60 : ℝ) > 0 ∧ accelBody.drag = 0
    ∧ (GravityPhysics.InternalUpdateBody accelBody (1 / 60) false).acceleration = ⟨0, 0⟩
    ∧ (GravityPhysics.InternalUpdateBody accelBody (1 / 60) false).velocity.x
        = GravityPhysics.clampComponent
            (accelBody.velocity.x + 2 * accelBody.acceleration.x * (1 / 60)) accelBody.maxSpeed := by
  have h := substep_velocity_gain accelBody (1 / 60) rfl (by norm_num)
  exact ⟨rfl, by norm_num, rfl, h.1 false, (h.2 rfl).1⟩

/-- C9: an empty polygon on either side makes `CheckPolygonCollision` return
the not-collided result with zero axis and zero overlap (first early return of
the source), for every pair of positions. -/
theorem empty_polygon_not_collided (poly1 poly2 : List Vector2) (pos1 pos2 : Vector2)
    (h : poly1 = [] ∨ poly2 = []) :
    CollisionPhysics.CheckPolygonCollision poly1 pos1 poly2 pos2
      = ⟨false, ⟨0, 0⟩, 0⟩ := by
  rw [CollisionPhysics.CheckPolygonCollision, if_pos]
  rcases h with h | h <;> simp [h]

/-- Witness for `empty_polygon_not_collided` with a concrete empty first
polygon against a concrete one-vertex polygon. -/
theorem empty_polygon_not_collided_witness :
    ([] : List Vector2) = [] ∧
    CollisionPhysics.CheckPolygonCollision [] ⟨1, 2⟩ [⟨3, 4⟩] ⟨5, 6⟩
      = ⟨false, ⟨0, 0⟩, 0⟩ :=
  ⟨rfl, empty_polygon_not_collided [] [⟨3, 4⟩] ⟨1, 2⟩ ⟨5, 6⟩ (Or.inl rfl)⟩

theorem sqrt_1024 : Real.sqrt 1024 = 32 := by
  rw [show (1024 : ℝ) = 32 ^ 2 by norm_num, Real.sqrt_sq (by norm_num : (0 : ℝ) ≤ 32)]

/-- The candidate separating axes of the 32×32 axis-aligned square against
itself: the deduplicated unit normals `(0,1)` and `(-1,0)`. -/
theorem square_axes :
    CollisionPhysics.collectAxes
      (CollisionPhysics.collectAxes [] [⟨0, 0⟩, ⟨32, 0⟩, ⟨32, 32⟩, ⟨0, 32⟩])
      [⟨0, 0⟩, ⟨32, 0⟩, ⟨32, 32⟩, ⟨0, 32⟩]
      = [⟨0, 1⟩, ⟨-1, 0⟩] := by
  norm_num [CollisionPhysics.collectAxes, CollisionPhysics.edgePairs,
    CollisionPhysics.rotateOne, CollisionPhysics.addAxisFromEdge,
    CollisionPhysics.GetEdgeNormal, CollisionPhysics.DotProduct, sqrt_1024,
    List.zip, List.zipWith, abs_of_nonneg, abs_of_nonpos]

/-- C1 counterexample: two 32×32 squares overlapping by `5e-5 < 1e-4` on both
coordinate axes.  The broad phase passes, SAT finds no separating axis, yet
every axis overlap is below the negligible-overlap epsilon, so all axes are
skipped and the function returns `collided = true` with the INITIAL
accumulator: `overlapAxis = (0,0)` — not a unit vector. -/
theorem sat_zero_axis_at_near_touch :
    (CollisionPhysics.CheckPolygonCollision
        [⟨0, 0⟩, ⟨32, 0⟩, ⟨32, 32⟩, ⟨0, 32⟩] ⟨0, 0⟩
        [⟨0, 0⟩, ⟨32, 0⟩, ⟨32, 32⟩, ⟨0, 32⟩] ⟨639999 / 20000, 639999 / 20000⟩).collided = true
    ∧ ¬ UnitLength (CollisionPhysics.CheckPolygonCollision
        [⟨0, 0⟩, ⟨32, 0⟩, ⟨32, 32⟩, ⟨0, 32⟩] ⟨0, 0⟩
        [⟨0, 0⟩, ⟨32, 0⟩, ⟨32, 32⟩, ⟨0, 32⟩]
        ⟨639999 / 20000, 639999 / 20000⟩).overlapAxis := by
  have hres : CollisionPhysics.CheckPolygonCollision
      [⟨0, 0⟩, ⟨32, 0⟩, ⟨32, 32⟩, ⟨0, 32⟩] ⟨0, 0⟩
      [⟨0, 0⟩, ⟨32, 0⟩, ⟨32, 32⟩, ⟨0, 32⟩] ⟨639999 / 20000, 639999 / 20000⟩
      = ⟨true, ⟨0, 0⟩, CollisionPhysics.floatMax⟩ := by
    norm_num [CollisionPhysics.CheckPolygonCollision, square_axes, CollisionPhysics.satLoop,
      CollisionPhysics.ProjectPolygonOntoAxis, CollisionPhysics.projFold,
      CollisionPhysics.CheckOverlap, CollisionPhysics.CalculateIntervalOverlap,
      CollisionPhysics.CheckAABBCollision, CollisionPhysics.CalculateAABB,
      CollisionPhysics.aabbStep, CollisionPhysics.CalculatePolygonCenter,
      CollisionPhysics.DotProduct, Vector2.divScalar, min_def, max_def]
  rw [hres]
  exact ⟨rfl, by norm_num [UnitLength, CollisionPhysics.DotProduct]⟩

theorem unit_mem_addAxisFromEdge (axes : List Vector2) (e : Vector2 × Vector2)
    (h : ∀ b ∈ axes, UnitLength b) :
    ∀ a ∈ CollisionPhysics.addAxisFromEdge axes e, UnitLength a := by
  intro a ha
  simp only [CollisionPhysics.addAxisFromEdge] at ha
  split at ha
  · rename_i hlen
    split at ha
    · exact h a ha
    · rcases List.mem_append.mp ha with hm | hm
      · exact h a hm
      · have hx := List.mem_singleton.mp hm
        subst hx
        rw [UnitLength, CollisionPhysics.DotProduct]
        set nx := (CollisionPhysics.GetEdgeNormal (e.2 - e.1)).x with hnx
        set ny := (CollisionPhysics.GetEdgeNormal (e.2 - e.1)).y with hny
        set L := Real.sqrt (nx * nx + ny * ny) with hLdef
        have hL0 : (0 : ℝ) < L := lt_trans (by norm_num) hlen
        have key : L * L = nx * nx + ny * ny :=
          Real.mul_self_sqrt (add_nonneg (mul_self_nonneg nx) (mul_self_nonneg ny))
        field_simp
        linarith [key]
  · exact h a ha

theorem unit_foldl (l : List (Vector2 × Vector2)) :
    ∀ axes : List Vector2, (∀ b ∈ axes, UnitLength b) →
      ∀ a ∈ l.foldl CollisionPhysics.addAxisFromEdge axes, UnitLength a := by
  induction l with
  | nil => intro axes h a ha; exact h a ha
  | cons e es ih =>
    intro axes h a ha
    exact ih (CollisionPhysics.addAxisFromEdge axes e) (unit_mem_addAxisFromEdge axes e h) a ha

theorem unit_collectAxes (polygon : List Vector2) (axes : List Vector2)
    (h : ∀ b ∈ axes, UnitLength b) :
    ∀ a ∈ CollisionPhysics.collectAxes axes polygon, UnitLength a :=
  fun a ha => unit_foldl (CollisionPhysics.edgePairs polygon) axes h a ha

theorem satLoop_axis_mem (poly1 : List Vector2) (pos1 : Vector2) (poly2 : List Vector2)
    (pos2 : Vector2) :
    ∀ (axes : List Vector2) (acc res : Vector2 × ℝ),
      CollisionPhysics.satLoop poly1 pos1 poly2 pos2 axes acc = some res →
      res.1 = acc.1 ∨ res.1 ∈ axes := by
  intro axes
  induction axes with
  | nil =>
    intro acc res h
    simp only [CollisionPhysics.satLoop, Option.some.injEq] at h
    exact Or.inl (by rw [← h])
  | cons axis rest ih =>
    intro acc res h
    simp only [CollisionPhysics.satLoop] at h
    split at h
    · simp at h
    · split at h
      · rcases ih acc res h with h1 | h1
        · exact Or.inl h1
        · exact Or.inr (List.mem_cons_of_mem _ h1)
      · split at h
        · rcases ih _ res h with h1 | h1
          · exact Or.inr (h1 ▸ List.mem_cons_self _ _)
          · exact Or.inr (List.mem_cons_of_mem _ h1)
        · rcases ih acc res h with h1 | h1
          · exact Or.inl h1
          · exact Or.inr (List.mem_cons_of_mem _ h1)

theorem UnitLength_scale_neg (v : Vector2) (h : UnitLength v) :
    UnitLength (v.scale (-1)) := by
  rw [UnitLength, CollisionPhysics.DotProduct] at h ⊢
  simp only [Vector2.scale_x, Vector2.scale_y]
  nlinarith [h]

theorem DotProduct_scale_right (d v : Vector2) (s : ℝ) :
    CollisionPhysics.DotProduct d (v.scale s) = s * CollisionPhysics.DotProduct d v := by
  rw [CollisionPhysics.DotProduct, CollisionPhysics.DotProduct]
  simp only [Vector2.scale_x, Vector2.scale_y]
  ring

/-- C1 amended: whenever `CheckPolygonCollision` reports `collided = true`,
the returned `overlapAxis` is either a unit-length vector or the zero vector
(zero exactly when every candidate axis's overlap was below the
negligible-overlap epsilon `1e-4`, in which case the initial accumulator is
returned, see `sat_zero_axis_at_near_touch`), and its dot product with the
vector from polygon A's centroid to polygon B's centroid is ≥ 0. -/
theorem sat_axis_unit_or_zero (poly1 : List Vector2) (pos1 : Vector2)
    (poly2 : List Vector2) (pos2 : Vector2)
    (h : (CollisionPhysics.CheckPolygonCollision poly1 pos1 poly2 pos2).collided = true) :
    ((CollisionPhysics.CheckPolygonCollision poly1 pos1 poly2 pos2).overlapAxis = ⟨0, 0⟩
      ∨ UnitLength (CollisionPhysics.CheckPolygonCollision poly1 pos1 poly2 pos2).overlapAxis)
    ∧ 0 ≤ CollisionPhysics.DotProduct
        (CollisionPhysics.CalculatePolygonCenter poly2 pos2
          - CollisionPhysics.CalculatePolygonCenter poly1 pos1)
        (CollisionPhysics.CheckPolygonCollision poly1 pos1 poly2 pos2).overlapAxis := by
  simp only [CollisionPhysics.CheckPolygonCollision] at h ⊢
  split at h
  · simp at h
  · rename_i h1
    rw [if_neg h1]
    split at h
    · simp at h
    · rename_i h2
      rw [if_neg h2]
      split at h
      · simp at h
      · rename_i acc heq
        have hmem := satLoop_axis_mem poly1 pos1 poly2 pos2 _ _ _ heq
        have hzero_or_unit : acc.1 = (⟨0, 0⟩ : Vector2) ∨ UnitLength acc.1 := by
          rcases hmem with hm | hm
          · exact Or.inl hm
          · refine Or.inr ?_
            refine unit_collectAxes poly2 _ ?_ acc.1 hm
            exact unit_collectAxes poly1 [] (by intro b hb; simp at hb)
        split at h
        · rename_i hlt
          rw [if_pos hlt]
          constructor
          · rcases hzero_or_unit with hz | hu
            · left
              rw [hz]
              simp [Vector2.scale]
            · exact Or.inr (UnitLength_scale_neg _ hu)
          · rw [DotProduct_scale_right]
            nlinarith [hlt]
        · rename_i hge
          rw [if_neg hge]
          exact ⟨hzero_or_unit, not_lt.mp hge⟩

/-- Witness for `sat_axis_unit_or_zero` at two concrete one-vertex polygons
(which the SAT routine reports as collided, with the zero axis). -/
theorem sat_axis_unit_or_zero_witness :
    (CollisionPhysics.CheckPolygonCollision [⟨0, 0⟩] ⟨0, 0⟩ [⟨5, 5⟩] ⟨0, 0⟩).collided = true
    ∧ (((CollisionPhysics.CheckPolygonCollision [⟨0, 0⟩] ⟨0, 0⟩ [⟨5, 5⟩] ⟨0, 0⟩).overlapAxis
          = ⟨0, 0⟩
        ∨ UnitLength
            (CollisionPhysics.CheckPolygonCollision [⟨0, 0⟩] ⟨0, 0⟩ [⟨5, 5⟩] ⟨0, 0⟩).overlapAxis)
      ∧ 0 ≤ CollisionPhysics.DotProduct
          (CollisionPhysics.CalculatePolygonCenter [⟨5, 5⟩] ⟨0, 0⟩
            - CollisionPhysics.CalculatePolygonCenter [⟨0, 0⟩] ⟨0, 0⟩)
          (CollisionPhysics.CheckPolygonCollision [⟨0, 0⟩] ⟨0, 0⟩ [⟨5, 5⟩] ⟨0, 0⟩).overlapAxis) := by
  have hc : (CollisionPhysics.CheckPolygonCollision [⟨0, 0⟩] ⟨0, 0⟩ [⟨5, 5⟩] ⟨0, 0⟩).collided
      = true := by
    norm_num [CollisionPhysics.CheckPolygonCollision, CollisionPhysics.collectAxes,
      CollisionPhysics.edgePairs, CollisionPhysics.rotateOne, CollisionPhysics.addAxisFromEdge,
      CollisionPhysics.GetEdgeNormal, CollisionPhysics.satLoop,
      CollisionPhysics.CalculatePolygonCenter, CollisionPhysics.DotProduct, Vector2.divScalar]
  exact ⟨hc, sat_axis_unit_or_zero _ _ _ _ hc⟩

/-- The bisection loop keeps its time of impact inside the bracket-enclosing
interval: starting from a bracket inside `[0,1]` and a best time in `[0,1]`,
the returned time stays in `[0,1]`. -/
theorem ccdLoop_toi_bounds (poly1 : List Vector2) (s1 e1 : Vector2)
    (poly2 : List Vector2) (s2 e2 : Vector2) :
    ∀ (n : ℕ) (tMin tMax : ℝ) (best : ℝ × Vector2 × CollisionPhysics.CollisionResult),
      0 ≤ tMin → tMin ≤ tMax → tMax ≤ 1 → 0 ≤ best.1 → best.1 ≤ 1 →
      0 ≤ (CollisionPhysics.ccdLoop poly1 s1 e1 poly2 s2 e2 n tMin tMax best).1
      ∧ (CollisionPhysics.ccdLoop poly1 s1 e1 poly2 s2 e2 n tMin tMax best).1 ≤ 1 := by
  intro n
  induction n with
  | zero => intro tMin tMax best h0 h1 h2 hb0 hb1; exact ⟨hb0, hb1⟩
  | succ k ih =>
    intro tMin tMax best h0 h1 h2 hb0 hb1
    have hm0 : 0 ≤ (tMin + tMax) * 0.5 := by nlinarith
    have hm1 : tMin ≤ (tMin + tMax) * 0.5 := by nlinarith
    have hm2 : (tMin + tMax) * 0.5 ≤ tMax := by nlinarith
    have hm3 : (tMin + tMax) * 0.5 ≤ 1 := le_trans hm2 h2
    simp only [CollisionPhysics.ccdLoop]
    split
    · split
      · exact ⟨hm0, hm3⟩
      · exact ih tMin ((tMin + tMax) * 0.5) _ h0 hm1 hm3 hm0 hm3
    · split
      · exact ⟨hb0, hb1⟩
      · exact ih ((tMin + tMax) * 0.5) tMax best hm0 hm2 h2 hb0 hb1

/-- C5 amended: `ContinuousCollisionCheck` always returns a `timeOfImpact` in
`[0,1]`; if SAT reports a collision at the start positions it returns
`collided = true`, `timeOfImpact = 0`, `impactPosition = startPos1` and that
SAT result; and if SAT reports NO collision at the start positions (the early
exits are tested in order), no collision at the end positions, and the two
swept AABBs do not intersect, it returns `collided = false` with
`timeOfImpact = 1` and `impactPosition = endPos1`. -/
theorem ccd_toi_bounds_and_early_exits (poly1 : List Vector2) (s1 e1 : Vector2)
    (poly2 : List Vector2) (s2 e2 : Vector2) (n : ℕ) :
    (0 ≤ (CollisionPhysics.ContinuousCollisionCheck poly1 s1 e1 poly2 s2 e2 n).timeOfImpact
      ∧ (CollisionPhysics.ContinuousCollisionCheck poly1 s1 e1 poly2 s2 e2 n).timeOfImpact ≤ 1)
    ∧ ((CollisionPhysics.CheckPolygonCollision poly1 s1 poly2 s2).collided = true →
        CollisionPhysics.ContinuousCollisionCheck poly1 s1 e1 poly2 s2 e2 n
          = ⟨true, 0, s1, CollisionPhysics.CheckPolygonCollision poly1 s1 poly2 s2⟩)
    ∧ ((CollisionPhysics.CheckPolygonCollision poly1 s1 poly2 s2).collided = false →
        (CollisionPhysics.CheckPolygonCollision poly1 e1 poly2 e2).collided = false →
        ¬ CollisionPhysics.CheckAABBCollision
            (CollisionPhysics.CalculateSweptAABB poly1 s1 e1).1
            ((CollisionPhysics.CalculateSweptAABB poly1 s1 e1).2
              - (CollisionPhysics.CalculateSweptAABB poly1 s1 e1).1)
            (CollisionPhysics.CalculateSweptAABB poly2 s2 e2).1
            ((CollisionPhysics.CalculateSweptAABB poly2 s2 e2).2
              - (CollisionPhysics.CalculateSweptAABB poly2 s2 e2).1) →
        CollisionPhysics.ContinuousCollisionCheck poly1 s1 e1 poly2 s2 e2 n
          = ⟨false, 1, e1, ⟨false, ⟨0, 0⟩, 0⟩⟩) := by
  simp only [CollisionPhysics.ContinuousCollisionCheck]
  split
  · rename_i hstart
    refine ⟨⟨le_refl 0, by norm_num⟩, fun _ => rfl, fun habs _ _ => ?_⟩
    rw [habs] at hstart
    simp at hstart
  · rename_i hstart
    split
    · rename_i hexit
      refine ⟨⟨by norm_num, le_refl 1⟩, fun habs => absurd habs hstart, fun _ _ _ => rfl⟩
    · rename_i hexit
      have hb := ccdLoop_toi_bounds poly1 s1 e1 poly2 s2 e2 n 0 1
        (1, e1, ⟨false, ⟨0, 0⟩, 0⟩) (le_refl 0) (by norm_num) (le_refl 1)
        (by norm_num) (by norm_num)
      refine ⟨?_, fun habs => absurd habs hstart, fun _ hend hsw => ?_⟩
      · split
        · constructor
          · exact le_max_left 0 _
          · exact max_le (by norm_num) (by linarith [hb.2])
        · exact hb
      · exact absurd ⟨by simp [hend], hsw⟩ hexit

/-- Witness for `ccd_toi_bounds_and_early_exits`: the collide-at-start clause
at two one-vertex polygons (SAT reports them collided), and the
no-possible-crossing clause at two 32×32 squares 1000 px apart. -/
theorem ccd_early_exits_witness :
    (CollisionPhysics.CheckPolygonCollision [⟨0, 0⟩] ⟨0, 0⟩ [⟨5, 5⟩] ⟨0, 0⟩).collided = true
    ∧ CollisionPhysics.ContinuousCollisionCheck [⟨0, 0⟩] ⟨0, 0⟩ ⟨1, 1⟩ [⟨5, 5⟩] ⟨0, 0⟩ ⟨0, 0⟩ 16
        = ⟨true, 0, ⟨0, 0⟩, CollisionPhysics.CheckPolygonCollision [⟨0, 0⟩] ⟨0, 0⟩ [⟨5, 5⟩] ⟨0, 0⟩⟩
    ∧ (CollisionPhysics.CheckPolygonCollision
        [⟨0, 0⟩, ⟨32, 0⟩, ⟨32, 32⟩, ⟨0, 32⟩] ⟨0, 0⟩
        [⟨0, 0⟩, ⟨32, 0⟩, ⟨32, 32⟩, ⟨0, 32⟩] ⟨1000, 0⟩).collided = false
    ∧ (CollisionPhysics.CheckPolygonCollision
        [⟨0, 0⟩, ⟨32, 0⟩, ⟨32, 32⟩, ⟨0, 32⟩] ⟨10, 0⟩
        [⟨0, 0⟩, ⟨32, 0⟩, ⟨32, 32⟩, ⟨0, 32⟩] ⟨1000, 0⟩).collided = false
    ∧ CollisionPhysics.ContinuousCollisionCheck
        [⟨0, 0⟩, ⟨32, 0⟩, ⟨32, 32⟩, ⟨0, 32⟩] ⟨0, 0⟩ ⟨10, 0⟩
        [⟨0, 0⟩, ⟨32, 0⟩, ⟨32, 32⟩, ⟨0, 32⟩] ⟨1000, 0⟩ ⟨1000, 0⟩ 16
        = ⟨false, 1, ⟨10, 0⟩, ⟨false, ⟨0, 0⟩, 0⟩⟩ := by
  have hc : (CollisionPhysics.CheckPolygonCollision [⟨0, 0⟩] ⟨0, 0⟩ [⟨5, 5⟩] ⟨0, 0⟩).collided
      = true := by
    norm_num [CollisionPhysics.CheckPolygonCollision, CollisionPhysics.collectAxes,
      CollisionPhysics.edgePairs, CollisionPhysics.rotateOne, CollisionPhysics.addAxisFromEdge,
      CollisionPhysics.GetEdgeNormal, CollisionPhysics.satLoop,
      CollisionPhysics.CalculatePolygonCenter, CollisionPhysics.DotProduct, Vector2.divScalar]
  have hfar0 : (CollisionPhysics.CheckPolygonCollision
      [⟨0, 0⟩, ⟨32, 0⟩, ⟨32, 32⟩, ⟨0, 32⟩] ⟨0, 0⟩
      [⟨0, 0⟩, ⟨32, 0⟩, ⟨32, 32⟩, ⟨0, 32⟩] ⟨1000, 0⟩).collided = false := by
    norm_num [CollisionPhysics.CheckPolygonCollision, CollisionPhysics.CheckAABBCollision,
      CollisionPhysics.CalculateAABB, CollisionPhysics.aabbStep]
  have hfar1 : (CollisionPhysics.CheckPolygonCollision
      [⟨0, 0⟩, ⟨32, 0⟩, ⟨32, 32⟩, ⟨0, 32⟩] ⟨10, 0⟩
      [⟨0, 0⟩, ⟨32, 0⟩, ⟨32, 32⟩, ⟨0, 32⟩] ⟨1000, 0⟩).collided = false := by
    norm_num [CollisionPhysics.CheckPolygonCollision, CollisionPhysics.CheckAABBCollision,
      CollisionPhysics.CalculateAABB, CollisionPhysics.aabbStep]
  have hswept : ¬ CollisionPhysics.CheckAABBCollision
      (CollisionPhysics.CalculateSweptAABB
        [⟨0, 0⟩, ⟨32, 0⟩, ⟨32, 32⟩, ⟨0, 32⟩] ⟨0, 0⟩ ⟨10, 0⟩).1
      ((CollisionPhysics.CalculateSweptAABB
        [⟨0, 0⟩, ⟨32, 0⟩, ⟨32, 32⟩, ⟨0, 32⟩] ⟨0, 0⟩ ⟨10, 0⟩).2
        - (CollisionPhysics.CalculateSweptAABB
            [⟨0, 0⟩, ⟨32, 0⟩, ⟨32, 32⟩, ⟨0, 32⟩] ⟨0, 0⟩ ⟨10, 0⟩).1)
      (CollisionPhysics.CalculateSweptAABB
        [⟨0, 0⟩, ⟨32, 0⟩, ⟨32, 32⟩, ⟨0, 32⟩] ⟨1000, 0⟩ ⟨1000, 0⟩).1
      ((CollisionPhysics.CalculateSweptAABB
        [⟨0, 0⟩, ⟨32, 0⟩, ⟨32, 32⟩, ⟨0, 32⟩] ⟨1000, 0⟩ ⟨1000, 0⟩).2
        - (CollisionPhysics.CalculateSweptAABB
            [⟨0, 0⟩, ⟨32, 0⟩, ⟨32, 32⟩, ⟨0, 32⟩] ⟨1000, 0⟩ ⟨1000, 0⟩).1) := by
    norm_num [CollisionPhysics.CheckAABBCollision, CollisionPhysics.CalculateSweptAABB,
      CollisionPhysics.CalculateAABB, CollisionPhysics.aabbStep, min_def, max_def]
  refine ⟨hc, (ccd_toi_bounds_and_early_exits [⟨0, 0⟩] ⟨0, 0⟩ ⟨1, 1⟩ [⟨5, 5⟩] ⟨0, 0⟩ ⟨0, 0⟩
      16).2.1 hc,
    hfar0, hfar1,
    (ccd_toi_bounds_and_early_exits
      [⟨0, 0⟩, ⟨32, 0⟩, ⟨32, 32⟩, ⟨0, 32⟩] ⟨0, 0⟩ ⟨10, 0⟩
      [⟨0, 0⟩, ⟨32, 0⟩, ⟨32, 32⟩, ⟨0, 32⟩] ⟨1000, 0⟩ ⟨1000, 0⟩ 16).2.2 hfar0 hfar1 hswept⟩

/-- C5 counterexample: the claim states its two early exits unconditionally,
but the code tests them in order.  A one-vertex polygon at the corner of a
32×32 square (SAT reports degenerate polygons at touching positions as
collided) moving far away satisfies the second clause's antecedent — no SAT
collision at the end positions and disjoint swept AABBs — yet the code takes
the FIRST early exit and returns `collided = true` with `timeOfImpact = 0`,
not `collided = false` with `timeOfImpact = 1`. -/
theorem ccd_start_overrides_swept_exit :
    (CollisionPhysics.CheckPolygonCollision [⟨0, 0⟩] ⟨-100, -100⟩
        [⟨0, 0⟩, ⟨32, 0⟩, ⟨32, 32⟩, ⟨0, 32⟩] ⟨0, 0⟩).collided = false
    ∧ ¬ CollisionPhysics.CheckAABBCollision
        (CollisionPhysics.CalculateSweptAABB [⟨0, 0⟩] ⟨0, 0⟩ ⟨-100, -100⟩).1
        ((CollisionPhysics.CalculateSweptAABB [⟨0, 0⟩] ⟨0, 0⟩ ⟨-100, -100⟩).2
          - (CollisionPhysics.CalculateSweptAABB [⟨0, 0⟩] ⟨0, 0⟩ ⟨-100, -100⟩).1)
        (CollisionPhysics.CalculateSweptAABB
          [⟨0, 0⟩, ⟨32, 0⟩, ⟨32, 32⟩, ⟨0, 32⟩] ⟨0, 0⟩ ⟨0, 0⟩).1
        ((CollisionPhysics.CalculateSweptAABB
          [⟨0, 0⟩, ⟨32, 0⟩, ⟨32, 32⟩, ⟨0, 32⟩] ⟨0, 0⟩ ⟨0, 0⟩).2
          - (CollisionPhysics.CalculateSweptAABB
              [⟨0, 0⟩, ⟨32, 0⟩, ⟨32, 32⟩, ⟨0, 32⟩] ⟨0, 0⟩ ⟨0, 0⟩).1)
    ∧ (CollisionPhysics.ContinuousCollisionCheck [⟨0, 0⟩] ⟨0, 0⟩ ⟨-100, -100⟩
        [⟨0, 0⟩, ⟨32, 0⟩, ⟨32, 32⟩, ⟨0, 32⟩] ⟨0, 0⟩ ⟨0, 0⟩ 16).collided = true
    ∧ (CollisionPhysics.ContinuousCollisionCheck [⟨0, 0⟩] ⟨0, 0⟩ ⟨-100, -100⟩
        [⟨0, 0⟩, ⟨32, 0⟩, ⟨32, 32⟩, ⟨0, 32⟩] ⟨0, 0⟩ ⟨0, 0⟩ 16).timeOfImpact = 0 := by
  have hstart : (CollisionPhysics.CheckPolygonCollision [⟨0, 0⟩] ⟨0, 0⟩
      [⟨0, 0⟩, ⟨32, 0⟩, ⟨32, 32⟩, ⟨0, 32⟩] ⟨0, 0⟩).collided = true := by
    norm_num [CollisionPhysics.CheckPolygonCollision, CollisionPhysics.collectAxes,
      CollisionPhysics.edgePairs, CollisionPhysics.rotateOne, CollisionPhysics.addAxisFromEdge,
      CollisionPhysics.GetEdgeNormal, CollisionPhysics.satLoop,
      CollisionPhysics.ProjectPolygonOntoAxis, CollisionPhysics.projFold,
      CollisionPhysics.CheckOverlap, CollisionPhysics.CalculateIntervalOverlap,
      CollisionPhysics.CalculatePolygonCenter, CollisionPhysics.DotProduct,
      Vector2.divScalar, sqrt_1024, Real.sqrt_zero, min_def, max_def]
  have hend : (CollisionPhysics.CheckPolygonCollision [⟨0, 0⟩] ⟨-100, -100⟩
      [⟨0, 0⟩, ⟨32, 0⟩, ⟨32, 32⟩, ⟨0, 32⟩] ⟨0, 0⟩).collided = false := by
    norm_num [CollisionPhysics.CheckPolygonCollision, CollisionPhysics.collectAxes,
      CollisionPhysics.edgePairs, CollisionPhysics.rotateOne, CollisionPhysics.addAxisFromEdge,
      CollisionPhysics.GetEdgeNormal, CollisionPhysics.satLoop,
      CollisionPhysics.ProjectPolygonOntoAxis, CollisionPhysics.projFold,
      CollisionPhysics.CheckOverlap, CollisionPhysics.CalculateIntervalOverlap,
      CollisionPhysics.CalculatePolygonCenter, CollisionPhysics.DotProduct,
      Vector2.divScalar, sqrt_1024, Real.sqrt_zero, min_def, max_def]
  have hswept : ¬ CollisionPhysics.CheckAABBCollision
      (CollisionPhysics.CalculateSweptAABB [⟨0, 0⟩] ⟨0, 0⟩ ⟨-100, -100⟩).1
      ((CollisionPhysics.CalculateSweptAABB [⟨0, 0⟩] ⟨0, 0⟩ ⟨-100, -100⟩).2
        - (CollisionPhysics.CalculateSweptAABB [⟨0, 0⟩] ⟨0, 0⟩ ⟨-100, -100⟩).1)
      (CollisionPhysics.CalculateSweptAABB
        [⟨0, 0⟩, ⟨32, 0⟩, ⟨32, 32⟩, ⟨0, 32⟩] ⟨0, 0⟩ ⟨0, 0⟩).1
      ((CollisionPhysics.CalculateSweptAABB
        [⟨0, 0⟩, ⟨32, 0⟩, ⟨32, 32⟩, ⟨0, 32⟩] ⟨0, 0⟩ ⟨0, 0⟩).2
        - (CollisionPhysics.CalculateSweptAABB
            [⟨0, 0⟩, ⟨32, 0⟩, ⟨32, 32⟩, ⟨0, 32⟩] ⟨0, 0⟩ ⟨0, 0⟩).1) := by
    norm_num [CollisionPhysics.CheckAABBCollision, CollisionPhysics.CalculateSweptAABB,
      CollisionPhysics.CalculateAABB, CollisionPhysics.aabbStep, min_def, max_def]
  have hres : CollisionPhysics.ContinuousCollisionCheck [⟨0, 0⟩] ⟨0, 0⟩ ⟨-100, -100⟩
      [⟨0, 0⟩, ⟨32, 0⟩, ⟨32, 32⟩, ⟨0, 32⟩] ⟨0, 0⟩ ⟨0, 0⟩ 16
      = ⟨true, 0, ⟨0, 0⟩, CollisionPhysics.CheckPolygonCollision [⟨0, 0⟩] ⟨0, 0⟩
          [⟨0, 0⟩, ⟨32, 0⟩, ⟨32, 32⟩, ⟨0, 32⟩] ⟨0, 0⟩⟩ := by
    rw [CollisionPhysics.ContinuousCollisionCheck, if_pos hstart]
  exact ⟨hend, hswept, by rw [hres], by rw [hres]⟩

theorem sqrt_four : Real.sqrt 4 = 2 := by
  rw [show (4 : ℝ) = 2 ^ 2 by norm_num, Real.sqrt_sq (by norm_num : (0 : ℝ) ≤ 2)]

/-- C8 counterexample: a nonempty polygon the ray misses.  The loop never
accepts a hit, `closestT` keeps its initial FLT_MAX, and the returned
`hitDistance = FLT_MAX / rayLength` is far outside `[0,1]` even though a
result is returned (with `hit = false`). -/
theorem raycast_miss_distance_out_of_range :
    (CollisionPhysics.RaycastPolygon ⟨0, 0⟩ ⟨1, 0⟩ [⟨5, 5⟩] ⟨0, 0⟩).hit = false
    ∧ ¬ ((CollisionPhysics.RaycastPolygon ⟨0, 0⟩ ⟨1, 0⟩ [⟨5, 5⟩] ⟨0, 0⟩).hitDistance ≤ 1) := by
  have hres : CollisionPhysics.RaycastPolygon ⟨0, 0⟩ ⟨1, 0⟩ [⟨5, 5⟩] ⟨0, 0⟩
      = ⟨false, ⟨0, 0⟩, ⟨0, 0⟩, CollisionPhysics.floatMax⟩ := by
    norm_num [CollisionPhysics.RaycastPolygon, CollisionPhysics.raycastLoop,
      CollisionPhysics.edgePairs, CollisionPhysics.rotateOne, CollisionPhysics.GetEdgeNormal,
      CollisionPhysics.DotProduct, Real.sqrt_one, List.map]
  rw [hres]
  refine ⟨rfl, ?_⟩
  norm_num [CollisionPhysics.floatMax]

/-- The raycast loop's invariant: once a hit is recorded, the closest `t`
stays within `[0, rayLength]` (new hits are only accepted with
`t ≥ 0 ∧ t ≤ rayLength`). -/
theorem raycastLoop_t_bounds (rayStart rayDir : Vector2) (rayLength : ℝ) :
    ∀ (edges : List (Vector2 × Vector2)) (acc : ℝ × Vector2 × Vector2 × Bool),
      (acc.2.2.2 = true → 0 ≤ acc.1 ∧ acc.1 ≤ rayLength) →
      ((CollisionPhysics.raycastLoop rayStart rayDir rayLength edges acc).2.2.2 = true →
        0 ≤ (CollisionPhysics.raycastLoop rayStart rayDir rayLength edges acc).1
        ∧ (CollisionPhysics.raycastLoop rayStart rayDir rayLength edges acc).1 ≤ rayLength) := by
  intro edges
  induction edges with
  | nil => intro acc hacc; exact hacc
  | cons e rest ih =>
    intro acc hacc
    rcases e with ⟨edgeStart, edgeEnd⟩
    simp only [CollisionPhysics.raycastLoop]
    split
    · exact ih acc hacc
    · split
      · rename_i ht
        split
        · exact ih _ (fun _ => ⟨ht.1, ht.2.1⟩)
        · exact ih acc hacc
      · exact ih acc hacc

/-- C8 amended: whenever `RaycastPolygon` reports `hit = true` the returned
`hitDistance` lies in `[0,1]`; an empty polygon or a ray of length below the
`1e-6` tolerance yields the not-hit result with `hitDistance = 1`.  (When a
nonempty polygon is simply missed, `hit = false` and `hitDistance` is the
sentinel `FLT_MAX / rayLength`, which exceeds 1 — see
`raycast_miss_distance_out_of_range`.) -/
theorem raycast_hit_distance_bounds (rayStart rayEnd : Vector2) (polygon : List Vector2)
    (polyPos : Vector2) :
    ((CollisionPhysics.RaycastPolygon rayStart rayEnd polygon polyPos).hit = true →
      0 ≤ (CollisionPhysics.RaycastPolygon rayStart rayEnd polygon polyPos).hitDistance
      ∧ (CollisionPhysics.RaycastPolygon rayStart rayEnd polygon polyPos).hitDistance ≤ 1)
    ∧ (polygon = [] →
        CollisionPhysics.RaycastPolygon rayStart rayEnd polygon polyPos
          = ⟨false, ⟨0, 0⟩, ⟨0, 0⟩, 1⟩)
    ∧ (Real.sqrt ((rayEnd - rayStart).x * (rayEnd - rayStart).x
          + (rayEnd - rayStart).y * (rayEnd - rayStart).y) < 1e-6 →
        CollisionPhysics.RaycastPolygon rayStart rayEnd polygon polyPos
          = ⟨false, ⟨0, 0⟩, ⟨0, 0⟩, 1⟩) := by
  simp only [CollisionPhysics.RaycastPolygon]
  split
  · rename_i he
    refine ⟨fun habs => by simp at habs, fun _ => rfl, fun _ => rfl⟩
  · rename_i he
    split
    · rename_i hlen
      refine ⟨fun habs => by simp at habs, fun _ => rfl, fun _ => rfl⟩
    · rename_i hlen
      have hpos : (0 : ℝ) < Real.sqrt ((rayEnd - rayStart).x * (rayEnd - rayStart).x
          + (rayEnd - rayStart).y * (rayEnd - rayStart).y) :=
        lt_of_lt_of_le (by norm_num) (not_lt.mp hlen)
      refine ⟨fun hhit => ?_, fun hp => ?_, fun habs => absurd habs hlen⟩
      · have hb := raycastLoop_t_bounds rayStart _ _ _
          ((CollisionPhysics.floatMax, ⟨0, 0⟩, ⟨0, 0⟩, false) : ℝ × Vector2 × Vector2 × Bool)
          (fun habs => by simp at habs) hhit
        rw [if_pos hpos]
        exact ⟨div_nonneg hb.1 (le_of_lt hpos), (div_le_one hpos).mpr hb.2⟩
      · rw [hp] at he
        simp at he

/-- Witness for `raycast_hit_distance_bounds`: the hit clause at a horizontal
unit ray crossing a vertical two-vertex segment polygon, the empty-polygon
clause, and the zero-length-ray clause, each at concrete inputs. -/
theorem raycast_hit_distance_bounds_witness :
    (CollisionPhysics.RaycastPolygon ⟨0, 0⟩ ⟨1, 0⟩ [⟨0, -1⟩, ⟨0, 1⟩] ⟨1 / 2, 0⟩).hit = true
    ∧ 0 ≤ (CollisionPhysics.RaycastPolygon ⟨0, 0⟩ ⟨1, 0⟩ [⟨0, -1⟩, ⟨0, 1⟩] ⟨1 / 2, 0⟩).hitDistance
    ∧ (CollisionPhysics.RaycastPolygon ⟨0, 0⟩ ⟨1, 0⟩ [⟨0, -1⟩, ⟨0, 1⟩] ⟨1 / 2, 0⟩).hitDistance ≤ 1
    ∧ CollisionPhysics.RaycastPolygon ⟨0, 0⟩ ⟨1, 0⟩ [] ⟨0, 0⟩ = ⟨false, ⟨0, 0⟩, ⟨0, 0⟩, 1⟩
    ∧ CollisionPhysics.RaycastPolygon ⟨2, 3⟩ ⟨2, 3⟩ [⟨5, 5⟩] ⟨0, 0⟩
        = ⟨false, ⟨0, 0⟩, ⟨0, 0⟩, 1⟩ := by
  have hhit : (CollisionPhysics.RaycastPolygon ⟨0, 0⟩ ⟨1, 0⟩ [⟨0, -1⟩, ⟨0, 1⟩]
      ⟨1 / 2, 0⟩).hit = true := by
    norm_num [CollisionPhysics.RaycastPolygon, CollisionPhysics.raycastLoop,
      CollisionPhysics.edgePairs, CollisionPhysics.rotateOne, CollisionPhysics.GetEdgeNormal,
      CollisionPhysics.DotProduct, CollisionPhysics.floatMax, Real.sqrt_one, sqrt_four,
      List.map]
  have h1 := (raycast_hit_distance_bounds ⟨0, 0⟩ ⟨1, 0⟩ [⟨0, -1⟩, ⟨0, 1⟩] ⟨1 / 2, 0⟩).1 hhit
  refine ⟨hhit, h1.1, h1.2,
    (raycast_hit_distance_bounds ⟨0, 0⟩ ⟨1, 0⟩ [] ⟨0, 0⟩).2.1 rfl,
    (raycast_hit_distance_bounds ⟨2, 3⟩ ⟨2, 3⟩ [⟨5, 5⟩] ⟨0, 0⟩).2.2 ?_⟩
  norm_num [Real.sqrt_zero]

set_option maxHeartbeats 2000000 in
/-- C6: `ResolveCollision` is a no-op when not collided, when both bodies are
static, or when the total resolvable mass (0 for a static body, else its mass
field) is ≤ 0; and in every call a static body's position and velocity are
left unchanged (only the `!isStatic` branches write to a body). -/
theorem resolve_noop_and_static_preserved (b1 b2 : Body)
    (r : CollisionPhysics.CollisionResult) :
    (r.collided = false → CollisionPhysics.ResolveCollision b1 b2 r = (b1, b2))
    ∧ (b1.isStatic = true → b2.isStatic = true →
        CollisionPhysics.ResolveCollision b1 b2 r = (b1, b2))
    ∧ ((if b1.isStatic then (0 : ℝ) else b1.mass)
          + (if b2.isStatic then (0 : ℝ) else b2.mass) ≤ 0 →
        CollisionPhysics.ResolveCollision b1 b2 r = (b1, b2))
    ∧ (b1.isStatic = true →
        (CollisionPhysics.ResolveCollision b1 b2 r).1.position = b1.position
        ∧ (CollisionPhysics.ResolveCollision b1 b2 r).1.velocity = b1.velocity)
    ∧ (b2.isStatic = true →
        (CollisionPhysics.ResolveCollision b1 b2 r).2.position = b2.position
        ∧ (CollisionPhysics.ResolveCollision b1 b2 r).2.velocity = b2.velocity) := by
  refine ⟨?_, ?_, ?_, ?_, ?_⟩
  · intro h
    rw [CollisionPhysics.ResolveCollision, if_pos (by simp [h])]
  · intro h1 h2
    rw [CollisionPhysics.ResolveCollision]
    split
    · rfl
    · rw [if_pos ⟨h1, h2⟩]
  · intro hm
    simp only [CollisionPhysics.ResolveCollision]
    split
    · rfl
    · split <;> rfl
  · intro h1
    simp only [CollisionPhysics.ResolveCollision, h1]
    norm_num
    constructor <;> (repeat' split) <;> rfl
  · intro h2
    simp only [CollisionPhysics.ResolveCollision, h2]
    norm_num
    constructor <;> (repeat' split) <;> rfl

/-- Witness for `resolve_noop_and_static_preserved`: each clause discharged at
concrete bodies — a non-collided result, a static/static pair, a negative-mass
dynamic body against a static one, and static bodies on either side of a
genuine collision with a dynamic partner. -/
theorem resolve_noop_and_static_preserved_witness :
    CollisionPhysics.ResolveCollision fallBody staticBody ⟨false, ⟨0, 0⟩, 0⟩
      = (fallBody, staticBody)
    ∧ CollisionPhysics.ResolveCollision staticBody staticBody ⟨true, ⟨0, -1⟩, 5⟩
      = (staticBody, staticBody)
    ∧ ((if negMassBody.isStatic then (0 : ℝ) else negMassBody.mass)
        + (if staticBody.isStatic then (0 : ℝ) else staticBody.mass) ≤ 0)
    ∧ CollisionPhysics.ResolveCollision negMassBody staticBody ⟨true, ⟨0, -1⟩, 5⟩
      = (negMassBody, staticBody)
    ∧ (CollisionPhysics.ResolveCollision staticBody fallBody ⟨true, ⟨0, -1⟩, 5⟩).1.position
      = staticBody.position
    ∧ (CollisionPhysics.ResolveCollision staticBody fallBody ⟨true, ⟨0, -1⟩, 5⟩).1.velocity
      = staticBody.velocity
    ∧ (CollisionPhysics.ResolveCollision fallBody staticBody ⟨true, ⟨0, -1⟩, 5⟩).2.position
      = staticBody.position
    ∧ (CollisionPhysics.ResolveCollision fallBody staticBody ⟨true, ⟨0, -1⟩, 5⟩).2.velocity
      = staticBody.velocity := by
  have hmass : (if negMassBody.isStatic then (0 : ℝ) else negMassBody.mass)
      + (if staticBody.isStatic then (0 : ℝ) else staticBody.mass) ≤ 0 := by
    norm_num [negMassBody, staticBody]
  refine ⟨(resolve_noop_and_static_preserved fallBody staticBody ⟨false, ⟨0, 0⟩, 0⟩).1 rfl,
    (resolve_noop_and_static_preserved staticBody staticBody ⟨true, ⟨0, -1⟩, 5⟩).2.1 rfl rfl,
    hmass,
    (resolve_noop_and_static_preserved negMassBody staticBody ⟨true, ⟨0, -1⟩, 5⟩).2.2.1 hmass,
    ((resolve_noop_and_static_preserved staticBody fallBody ⟨true, ⟨0, -1⟩, 5⟩).2.2.2.1 rfl).1,
    ((resolve_noop_and_static_preserved staticBody fallBody ⟨true, ⟨0, -1⟩, 5⟩).2.2.2.1 rfl).2,
    ((resolve_noop_and_static_preserved fallBody staticBody ⟨true, ⟨0, -1⟩, 5⟩).2.2.2.2 rfl).1,
    ((resolve_noop_and_static_preserved fallBody staticBody ⟨true, ⟨0, -1⟩, 5⟩).2.2.2.2 rfl).2⟩

/-- C7: starting from `groundedFrames = 0`, `IsStablyGrounded` becomes true
exactly after ≥ 2 consecutive `UpdateGroundedState(true)` calls; any
`UpdateGroundedState(false)` call resets the counter to 0; and after every
`UpdateGroundedState` call `isGrounded = (groundedFrames ≥ 2)`. -/
theorem grounded_hysteresis (b0 : ECS.PhysicsBodyComponent) (h0 : b0.groundedFrames = 0) :
    (∀ n : ℕ,
      ECS.IsStablyGrounded ((fun b => ECS.UpdateGroundedState b true)^[n] b0) = true ↔ 2 ≤ n)
    ∧ (∀ b : ECS.PhysicsBodyComponent, (ECS.UpdateGroundedState b false).groundedFrames = 0)
    ∧ (∀ (b : ECS.PhysicsBodyComponent) (g : Bool),
        (ECS.UpdateGroundedState b g).isGrounded
          = decide (2 ≤ (ECS.UpdateGroundedState b g).groundedFrames)) := by
  have hstep : ∀ b : ECS.PhysicsBodyComponent,
      (ECS.UpdateGroundedState b true).groundedFrames = b.groundedFrames + 1 := fun _ => rfl
  have hiter : ∀ n : ℕ,
      ((fun b => ECS.UpdateGroundedState b true)^[n] b0).groundedFrames = n := by
    intro n
    induction n with
    | zero => simpa using h0
    | succ k ih =>
      rw [Function.iterate_succ_apply', hstep, ih]
      push_cast
      ring
  refine ⟨?_, ?_, ?_⟩
  · intro n
    rw [ECS.IsStablyGrounded, ECS.GROUNDED_THRESHOLD, hiter n]
    simp only [decide_eq_true_eq]
    exact_mod_cast Iff.rfl
  · intro b
    rfl
  · intro b g
    cases g <;> rfl

/-- Witness for `grounded_hysteresis` at the concrete component
`groundedZero`: not stably grounded after one grounded frame, stably grounded
after two, and reset to 0 by a non-grounded frame. -/
theorem grounded_hysteresis_witness :
    groundedZero.groundedFrames = 0
    ∧ ECS.IsStablyGrounded
        ((fun b => ECS.UpdateGroundedState b true)^[2] groundedZero) = true
    ∧ ¬ (ECS.IsStablyGrounded
        ((fun b => ECS.UpdateGroundedState b true)^[1] groundedZero) = true)
    ∧ (ECS.UpdateGroundedState groundedZero false).groundedFrames = 0 := by
  have h := grounded_hysteresis groundedZero rfl
  refine ⟨rfl, (h.1 2).mpr (by norm_num), ?_, h.2.1 groundedZero⟩
  intro habs
  have := (h.1 1).mp habs
  norm_num at this

/-- C10: in one `CollisionSystem::Update` tick for a non-static body the
grounded counter is zeroed before contacts are counted, the final
`UpdateGroundedState(groundedFrames > 0)` adds one extra increment (so `k`
qualifying contacts leave `groundedFrames = k + 1` when `k ≥ 1`, else `0`),
`isGrounded` afterwards holds iff at least one qualifying contact (or
bottom-boundary clamp) occurred within the tick, and the result is completely
independent of the counter value the body carried into the tick. -/
theorem collision_tick_grounded_spec (b : ECS.PhysicsBodyComponent) (k : ℕ)
    (hs : b.isStatic = false) :
    ((ECS.collisionTickGrounded b k).isGrounded = true ↔ 1 ≤ k)
    ∧ (ECS.collisionTickGrounded b k).groundedFrames
        = (if 1 ≤ k then (k : ℤ) + 1 else 0)
    ∧ (∀ m : ℤ, ECS.collisionTickGrounded { b with groundedFrames := m } k
        = ECS.collisionTickGrounded b k) := by
  have hstepT : ∀ c : ECS.PhysicsBodyComponent,
      (ECS.UpdateGroundedState c true).groundedFrames = c.groundedFrames + 1 := fun _ => rfl
  have hgroundT : ∀ c : ECS.PhysicsBodyComponent,
      (ECS.UpdateGroundedState c true).isGrounded
        = decide (2 ≤ c.groundedFrames + 1) := fun _ => rfl
  rcases Nat.eq_zero_or_pos k with hk | hk
  · subst hk
    refine ⟨?_, ?_, fun m => by cases b; rfl⟩
    · show false = true ↔ 1 ≤ 0
      simp
    · show (0 : ℤ) = if 1 ≤ 0 then ((0 : ℕ) : ℤ) + 1 else 0
      simp
  · have hk1 : 1 ≤ k := hk
    have htick : ECS.collisionTickGrounded b k
        = ECS.UpdateGroundedState { b with groundedFrames := (k : ℤ) } true := by
      simp only [ECS.collisionTickGrounded]
      simp
      congr 1
      rw [decide_eq_true_eq]
      omega
    refine ⟨?_, ?_, fun m => by cases b; rfl⟩
    · rw [htick, hgroundT]
      simp only [decide_eq_true_eq]
      omega
    · rw [htick, hstepT, if_pos hk1]

/-- Witness for `collision_tick_grounded_spec` at `groundedZero` with one
qualifying contact, including tick-independence from a stale counter of 7. -/
theorem collision_tick_grounded_witness :
    groundedZero.isStatic = false
    ∧ ((ECS.collisionTickGrounded groundedZero 1).isGrounded = true ↔ 1 ≤ 1)
    ∧ (ECS.collisionTickGrounded groundedZero 1).groundedFrames
        = (if 1 ≤ 1 then (1 : ℤ) + 1 else 0)
    ∧ ECS.collisionTickGrounded { groundedZero with groundedFrames := 7 } 1
        = ECS.collisionTickGrounded groundedZero 1 := by
  have h := collision_tick_grounded_spec groundedZero 1 rfl
  exact ⟨rfl, h.1, h.2.1, h.2.2 7⟩

end Nyon
